import Mathlib

/-!
Verification development for the iotjs module generator.

Embedded sources:
* `src/tools/iotjs_module_generator.py` — the Glue Emitter: pycparser-AST
  driven generation of jerryscript glue handlers (`generate_jerry_functions`),
  typedef resolution (`resolve_typedefs`), and source assembly
  (`gen_c_source`).
* `src/tools/module_generator/definiton_generator.py` — the Declaration
  Emitter: `DefinitonGenerator` with its type classification `node_to_type`
  and its guarded file-writing operations.
-/

namespace IotjsGen

/-- C AST nodes as pycparser's `c_ast` exposes them to
`iotjs_module_generator.py`: `TypeDecl` (with `declname` and an inner type),
`IdentifierType` (a list of names joined by spaces), `Struct` (name and field
declarations), `Union`, `Enum`, `PtrDecl`, `FuncDecl` (optional parameter
list and return type), `Decl` (a named declaration) and `Typedef`. -/
inductive CNode : Type where
  | typeDecl (declname : Option String) (ty : CNode)
  | identifierType (names : List String)
  | struct (name : Option String) (decls : List (String × CNode))
  | union (name : Option String)
  | enum (name : Option String)
  | ptrDecl (ty : CNode)
  | funcDecl (args : Option (List CNode)) (ret : CNode)
  | decl (name : String) (ty : CNode)
  | typedefDecl (name : String) (ty : CNode)

/-- `C_VOID_TYPE` from iotjs_module_generator.py. -/
def C_VOID_TYPE : String := "void"

/-- `C_BOOL_TYPE` from iotjs_module_generator.py. -/
def C_BOOL_TYPE : String := "_Bool"

/-- `C_NUMBER_TYPES` from iotjs_module_generator.py. -/
def C_NUMBER_TYPES : List String :=
  [ "short", "short int", "signed short", "signed short int",
    "unsigned short", "unsigned short int",
    "int", "signed", "signed int", "unsigned", "unsigned int",
    "long", "long int", "signed long", "signed long int",
    "unsigned long", "unsigned long int",
    "long long", "long long int", "signed long long", "signed long long int",
    "unsigned long long", "unsigned long long int",
    "float", "double", "long double" ]

/-- `C_CHAR_TYPES` from iotjs_module_generator.py. -/
def C_CHAR_TYPES : List String := ["char", "signed char", "unsigned char"]

/-- `C_STRING_TYPES` from iotjs_module_generator.py (declared in the source
but never consulted by any dispatch). -/
def C_STRING_TYPES : List String := ["char*", "signed char*", "unsigned char*"]

/-- `(' ').join(node.names)` applied to an IdentifierType's name list. -/
def joinNames (ns : List String) : String := String.intercalate " " ns

/-- Python's `'{s}'.format(s=struct.name)`: a missing (`None`) struct name is
formatted as the literal text `None`. -/
def structNameStr : Option String → String
  | some s => s
  | none => "None"

/-- One emitted code snippet of a glue handler body, one constructor per
template of iotjs_module_generator.py (`JS_CHECK_ARG_COUNT`,
`JS_CHECK_ARG_TYPE`, `JS_GET_NUM_ARG`, `JS_GET_BOOL_ARG`, `JS_GET_CHAR_ARG`,
`JS_GET_PROP`, `JS_NATIVE_CALL`, `JS_FUNC_RET`), holding exactly the values
substituted for the template's placeholders. -/
inductive Snippet : Type where
  | checkArgCount (count : Nat) (func : String)
  | checkArgType (tag : String) (index : Nat) (func : String)
  | getNumArg (ty : String) (index : Nat)
  | getBoolArg (index : Nat)
  | getCharArg (ty : String) (index : Nat)
  | getProp (s : String) (m : String) (obj : String)
  | nativeCall (ret : String) (result : String) (native : String) (params : String)
  | funcRet (ty : String) (result : String)
deriving Repr, DecidableEq

/-- The `.type` attribute of a pycparser node, for the nodes that have one
(`hasattr(node, 'type')` in `resolve_typedefs`). -/
def nodeTypeAttr : CNode → Option CNode
  | .typeDecl _ t => some t
  | .ptrDecl t => some t
  | .funcDecl _ r => some r
  | .decl _ t => some t
  | .typedefDecl _ t => some t
  | _ => none

/-- The per-parameter type dispatch of `generate_jerry_functions`
(iotjs_module_generator.py lines 283-324), applied to `param.type`:
identifier types are joined and matched against the number, char and bool
type lists; struct parameters get an object check plus one property read per
field; the `Union`, `Enum` and `PtrDecl` branches are `pass` and emit
nothing. -/
def dispatchParamType (funcname : String) (index : Nat) : CNode → List Snippet
  | .typeDecl _ (.identifierType ns) =>
    let paramtype := joinNames ns
    if paramtype ∈ C_NUMBER_TYPES then
      [.checkArgType "number" index funcname, .getNumArg paramtype index]
    else if paramtype ∈ C_CHAR_TYPES then
      [.checkArgType "string" index funcname, .getCharArg paramtype index]
    else if paramtype = C_BOOL_TYPE then
      [.checkArgType "boolean" index funcname, .getBoolArg index]
    else []
  | .typeDecl _ (.struct sname decls) =>
    .checkArgType "object" index funcname ::
      decls.map (fun d =>
        .getProp (structNameStr sname) d.1 ("args_p[" ++ toString index ++ "]"))
  | .typeDecl _ (.union _) => []
  | .typeDecl _ (.enum _) => []
  | .ptrDecl _ => []
  | _ => []

/-- Snippets emitted for one parameter node: the source reads `param.type`
and dispatches on it. -/
def genParamSnippets (funcname : String) (index : Nat) (param : CNode) : List Snippet :=
  match nodeTypeAttr param with
  | some t => dispatchParamType funcname index t
  | none => []

/-- The return-type dispatch of `generate_jerry_functions`
(iotjs_module_generator.py lines 328-362): `void` emits a bare native call
plus `jerry_create_undefined`; other identifier types emit the call into
`result` and, when the type is in the number/char/bool lists, the matching
`jerry_create_*` return; the `Struct`, `Union` and `Enum` branches are
`pass`, and a non-`TypeDecl` return falls outside the dispatch entirely. -/
def dispatchRetType (funcname nativeParams : String) : CNode → List Snippet
  | .typeDecl _ (.identifierType ns) =>
    let returntype := joinNames ns
    if returntype = C_VOID_TYPE then
      [.nativeCall "" "" funcname nativeParams, .funcRet "undefined" ""]
    else
      .nativeCall returntype " result = " funcname nativeParams ::
      (if returntype ∈ C_NUMBER_TYPES then [.funcRet "number" "result"]
       else if returntype ∈ C_CHAR_TYPES then
         [.funcRet "string" "(jerry_char_ptr_t)(&result)"]
       else if returntype = C_BOOL_TYPE then [.funcRet "boolean" "result"]
       else [])
  | _ => []

/-- `native_params`: the source appends `'arg_' + str(index)` for every
declared parameter before any type dispatch, then joins with `', '`. -/
def nativeParamsStr (params : List CNode) : String :=
  String.intercalate ", " ((List.range params.length).map (fun i => "arg_" ++ toString i))

/-- The body of one glue handler, as the ordered snippet list
`generate_jerry_functions` accumulates in `jerry_function`: when the
declaration carries a parameter list, the arity check comes first, followed
by the per-parameter snippets in declaration order; the return dispatch
closes the body.  A declaration without a parameter list (`args` is `None`)
skips the whole `if paramlist:` block. -/
def genBody (funcname : String) (args : Option (List CNode)) (ret : CNode) : List Snippet :=
  let paramPart :=
    match args with
    | some params =>
      Snippet.checkArgCount params.length funcname ::
        (params.mapIdx (fun i p => genParamSnippets funcname i p)).flatten
    | none => []
  let np :=
    match args with
    | some params => nativeParamsStr params
    | none => ""
  paramPart ++ dispatchRetType funcname np ret

/-- The error-message literal of the `JS_CHECK_ARG_COUNT` template: it
interpolates the function name and the expected count. -/
def JS_CHECK_ARG_COUNT_msg (func : String) (count : Nat) : String :=
  "Wrong argument count for " ++ func ++ "(), expected " ++ toString count ++ "."

/-- The `JS_CHECK_ARG_COUNT` template instantiated (braces of the generated C
are written escaped). -/
def render_JS_CHECK_ARG_COUNT (count : Nat) (func : String) : String :=
  "\n  if (args_cnt != " ++ toString count ++ ")\n  \x7b\n    const char* msg = \"" ++
    JS_CHECK_ARG_COUNT_msg func count ++
    "\";\n    return jerry_create_error(JERRY_ERROR_TYPE, (const jerry_char_t*)msg);\n  \x7d\n"

/-- The error-message literal of the `JS_CHECK_ARG_TYPE` template: it
interpolates the function name and the expected tag; the template's `INDEX`
placeholder does not occur in the message. -/
def JS_CHECK_ARG_TYPE_msg (func : String) (tag : String) : String :=
  "Wrong argument type for " ++ func ++ "(), expected " ++ tag ++ "."

/-- The `JS_CHECK_ARG_TYPE` template instantiated: the index appears in the
guard condition only. -/
def render_JS_CHECK_ARG_TYPE (tag : String) (index : Nat) (func : String) : String :=
  "\n  if (!jerry_value_is_" ++ tag ++ " (args_p[" ++ toString index ++ "]))\n  \x7b\n    const char* msg = \"" ++
    JS_CHECK_ARG_TYPE_msg func tag ++
    "\";\n    return jerry_create_error(JERRY_ERROR_TYPE, (const jerry_char_t*)msg);\n  \x7d\n"

/-- The `JS_GET_NUM_ARG` template instantiated. -/
def render_JS_GET_NUM_ARG (ty : String) (index : Nat) : String :=
  "\n  " ++ ty ++ " arg_" ++ toString index ++ " = jerry_get_number_value (args_p[" ++
    toString index ++ "]);\n"

/-- The `JS_GET_BOOL_ARG` template instantiated. -/
def render_JS_GET_BOOL_ARG (index : Nat) : String :=
  "\n  bool arg_" ++ toString index ++ " = jerry_get_boolean_value (args_p[" ++
    toString index ++ "]);\n"

/-- The `JS_GET_CHAR_ARG` template instantiated: a one-byte buffer
`char_INDEX[1]`, a `jerry_string_to_char_buffer` call bounded to 1, and a
cast of the single byte `char_INDEX[0]`. -/
def render_JS_GET_CHAR_ARG (ty : String) (index : Nat) : String :=
  "\n  jerry_char_t char_" ++ toString index ++ "[1];\n  jerry_string_to_char_buffer (args_p[" ++
    toString index ++ "], char_" ++ toString index ++ ", 1);\n  " ++ ty ++ " arg_" ++
    toString index ++ " = (" ++ ty ++ ")char_" ++ toString index ++ "[0];\n"

/-- The first local name the `JS_GET_PROP` template declares, qualified by
the struct name `s` and the member name `m`. -/
def propLocalName (s m : String) : String := s ++ "_" ++ m ++ "_name"

/-- The second local name the `JS_GET_PROP` template declares. -/
def propLocalValue (s m : String) : String := s ++ "_" ++ m ++ "_value"

/-- The `JS_GET_PROP` template instantiated. -/
def render_JS_GET_PROP (s m obj : String) : String :=
  "\n  jerry_value_t " ++ propLocalName s m ++ " = jerry_create_string ((const jerry_char_t *) \"" ++
    m ++ "\");\n  jerry_value_t " ++ propLocalValue s m ++ " = jerry_get_property (" ++
    obj ++ ", " ++ propLocalName s m ++ ");\n  jerry_release_value(" ++ propLocalName s m ++ ");\n"

/-- The `JS_NATIVE_CALL` template instantiated. -/
def render_JS_NATIVE_CALL (ret result native params : String) : String :=
  "\n  " ++ ret ++ result ++ native ++ "(" ++ params ++ ");\n"

/-- The `JS_FUNC_RET` template instantiated. -/
def render_JS_FUNC_RET (ty result : String) : String :=
  "\n  return jerry_create_" ++ ty ++ "(" ++ result ++ ");\n"

/-- Rendering of one snippet to the exact text its template produces. -/
def renderSnippet : Snippet → String
  | .checkArgCount count func => render_JS_CHECK_ARG_COUNT count func
  | .checkArgType tag index func => render_JS_CHECK_ARG_TYPE tag index func
  | .getNumArg ty index => render_JS_GET_NUM_ARG ty index
  | .getBoolArg index => render_JS_GET_BOOL_ARG index
  | .getCharArg ty index => render_JS_GET_CHAR_ARG ty index
  | .getProp s m obj => render_JS_GET_PROP s m obj
  | .nativeCall ret result native params => render_JS_NATIVE_CALL ret result native params
  | .funcRet ty result => render_JS_FUNC_RET ty result

/-- The `JS_FUNC_HANDLER` template instantiated with a function name and the
joined body. -/
def render_JS_FUNC_HANDLER (name body : String) : String :=
  "\njerry_value_t " ++ name ++
    "_handler (const jerry_value_t function_obj,\n                              const jerry_value_t this_val,\n                              const jerry_value_t args_p[],\n                              const jerry_length_t args_cnt)\n\x7b\n" ++
    body ++ "\n\x7d\n"

/-- `generate_jerry_functions`: one `JS_FUNC_HANDLER` is yielded per entry of
the `functions` list, unconditionally; the body is the snippet list joined
with newlines.  (`get_functions` only ever supplies `Decl` nodes whose type
is a `FuncDecl`, so the fallback arm is never reached on pipeline input.) -/
def generate_jerry_functions (functions : List CNode) : List String :=
  functions.map (fun f =>
    match f with
    | .decl name (.funcDecl args ret) =>
      render_JS_FUNC_HANDLER name
        (String.intercalate "\n" ((genBody name args ret).map renderSnippet))
    | _ => render_JS_FUNC_HANDLER "" "")

/-- Semantics of the guard the `JS_CHECK_ARG_COUNT` template emits: the
generated C returns the TypeError exactly when the runtime argument count
differs from the declared count (`args_cnt != COUNT`). -/
def js_check_arg_count_fires (count argc : Nat) : Bool := argc != count

/-- The rewriting step of `resolve_typedefs`'s inner `while` walk: starting
from a parent's `.type` child, descend through nodes that are not `TypeDecl`
but have a `.type` attribute; when the walk stops at a `TypeDecl` whose inner
node is an `IdentifierType` equal to the singleton `[first.name]`, the parent
pointer to that `TypeDecl` is replaced by `first.type`. -/
def resolveChild (fname : String) (fty : CNode) : CNode → CNode
  | .typeDecl dn (.identifierType ns) =>
    if ns = [fname] then fty else .typeDecl dn (.identifierType ns)
  | .typeDecl dn inner => .typeDecl dn inner
  | .ptrDecl t => .ptrDecl (resolveChild fname fty t)
  | .funcDecl a r => .funcDecl a (resolveChild fname fty r)
  | .decl n t => .decl n (resolveChild fname fty t)
  | .typedefDecl n t => .typedefDecl n (resolveChild fname fty t)
  | x => x

/-- One `second` processed against one typedef `first` (`parent = second;
child = second.type; …`). -/
def applyTypedef (fname : String) (fty : CNode) (second : CNode) : CNode :=
  match second with
  | .decl n t => .decl n (resolveChild fname fty t)
  | .typedefDecl n t => .typedefDecl n (resolveChild fname fty t)
  | x => x

/-- `resolve_typedefs(firstlist, secondlist)` for distinct lists: the outer
loop runs over the typedefs of `firstlist`, the inner loop rewrites every
element of `secondlist` in place. -/
def resolve_typedefs (firstlist secondlist : List CNode) : List CNode :=
  firstlist.foldl (fun secs first =>
    match first with
    | .typedefDecl fname fty => secs.map (applyTypedef fname fty)
    | _ => secs) secondlist

/-- `resolve_typedefs(typedefs, typedefs)`: iterating a list against itself
with in-place mutation, so the `first` taken at position `i` is the element
as already rewritten by the earlier iterations. -/
def resolve_typedefs_self (l : List CNode) : List CNode :=
  (List.range l.length).foldl (fun cur i =>
    match cur.get? i with
    | some (.typedefDecl fname fty) => cur.map (applyTypedef fname fty)
    | _ => cur) l

/-- `resolve_typedefs(typedefs, params)` acts on the very parameter objects
held inside each function's `FuncDecl`, so functionally each function's
parameter list is rewritten element-wise. -/
def applyTypedefToParams (fname : String) (fty : CNode) (f : CNode) : CNode :=
  match f with
  | .decl n (.funcDecl (some ps) r) =>
    .decl n (.funcDecl (some (ps.map (applyTypedef fname fty))) r)
  | x => x

/-- The third resolution pass of `gen_c_source`, rewriting every function's
parameters against every typedef. -/
def resolve_params_pass (typedefs : List CNode) (functions : List CNode) : List CNode :=
  typedefs.foldl (fun fs first =>
    match first with
    | .typedefDecl fname fty => fs.map (applyTypedefToParams fname fty)
    | _ => fs) functions

/-- The `INCLUDE` header template of the generated glue source. -/
def INCLUDE_str (header : String) : String :=
  "\n#include \"jerryscript.h\"\n#include \"" ++ header ++ "\"\n"

/-- The fixed `JS_REGIST_FUNC` helper emitted into every glue source. -/
def JS_REGIST_FUNC_str : String :=
  "\nvoid register_function (jerry_value_t object,\n                        const char* name,\n                        jerry_external_handler_t handler)\n\x7b\n  jerry_value_t prop_name = jerry_create_string((const jerry_char_t*)name);\n  jerry_value_t func = jerry_create_external_function(handler);\n  jerry_value_t ret = jerry_set_property(object, prop_name, func);\n  jerry_release_value(prop_name);\n  jerry_release_value(func);\n  jerry_release_value(ret);\n\x7d\n"

/-- The `INIT_REGIST_FUNC` line for one function. -/
def INIT_REGIST_FUNC_str (name : String) : String :=
  "  register_function(object, \"" ++ name ++ "\", " ++ name ++ "_handler);\n"

/-- The `INIT_FUNC` template instantiated. -/
def INIT_FUNC_str (name body : String) : String :=
  "\njerry_value_t Init" ++ name ++ "()\n\x7b\n  jerry_value_t object = jerry_create_object();\n" ++
    body ++ "\n  return object;\n\x7d\n"

/-- The parts list `generated_source` that `gen_c_source` accumulates after
its three resolution passes: the include block, the registration helper, one
handler per function, and the module initializer. -/
def gen_c_source_parts (typedefs functions : List CNode) (dirname : String) : List String :=
  let tds := resolve_typedefs_self typedefs
  let fns := resolve_typedefs tds functions
  let fns2 := resolve_params_pass tds fns
  [INCLUDE_str (dirname ++ "_js_wrapper.h"), JS_REGIST_FUNC_str]
    ++ generate_jerry_functions fns2
    ++ [INIT_FUNC_str dirname
          (String.intercalate "\n" (fns2.map (fun f =>
            match f with
            | .decl name _ => INIT_REGIST_FUNC_str name
            | _ => INIT_REGIST_FUNC_str "")))]

/-- `gen_c_source`'s return value: the parts joined with newlines. -/
def gen_c_source_model (typedefs functions : List CNode) (dirname : String) : String :=
  String.intercalate "\n" (gen_c_source_parts typedefs functions dirname)

/-- Hop count of the `while` walk of `resolve_typedefs` along the `.type`
spine of a node, stopping at the first `TypeDecl` or at a node without a
`.type` attribute. -/
def spineHops : CNode → Nat
  | .ptrDecl t => spineHops t + 1
  | .funcDecl _ r => spineHops r + 1
  | .decl _ t => spineHops t + 1
  | .typedefDecl _ t => spineHops t + 1
  | _ => 0

/-- Number of loop iterations the walk performs for one `second` node: the
walk starts at `second.type`. -/
def resolveWalkHops (second : CNode) : Nat :=
  match nodeTypeAttr second with
  | some t => spineHops t
  | none => 0

/-- The Category set of the specification (§3): the closed classification
result both back-ends are meant to share. -/
inductive Category : Type where
  | void | boolean | numeric | character
  | characterPointer | numericPointer | functionPointer | recordPointer
  | record | enum | function | unsupported
deriving Repr, DecidableEq

/-- The Category the Glue Emitter derives for a parameter position, read off
the branch structure of the per-parameter dispatch in
`generate_jerry_functions`: a branch that emits marshaling code fixes the
Category; the empty `pass` branches (union, enum, pointer) and identifier
types matching no list classify as `unsupported`. -/
def glueParamCategory : CNode → Category
  | .typeDecl _ (.identifierType ns) =>
    let s := joinNames ns
    if s ∈ C_NUMBER_TYPES then .numeric
    else if s ∈ C_CHAR_TYPES then .character
    else if s = C_BOOL_TYPE then .boolean
    else .unsupported
  | .typeDecl _ (.struct _ _) => .record
  | _ => .unsupported

/-- The Category the Glue Emitter derives for a return position, read off
the return dispatch in `generate_jerry_functions`. -/
def glueRetCategory : CNode → Category
  | .typeDecl _ (.identifierType ns) =>
    let s := joinNames ns
    if s = C_VOID_TYPE then .void
    else if s ∈ C_NUMBER_TYPES then .numeric
    else if s ∈ C_CHAR_TYPES then .character
    else if s = C_BOOL_TYPE then .boolean
    else .unsupported
  | _ => .unsupported

/-- NativeType of the specification (§3): the node view of the clang-based
front end that feeds the Declaration Emitter.  Records carry their name, the
namespaced `ns_name` and ordered fields; functions carry ordered named
parameters and a return type. -/
inductive NativeType : Type where
  | void
  | boolean
  | numeric
  | character
  | pointer (pointee : NativeType)
  | record (name : String) (nsName : String) (fields : List (String × NativeType))
  | enum (name : String)
  | func (params : List (String × NativeType)) (ret : NativeType)
  | unresolved

/-- Modelled from the spec: the clang wrapper (module_generator front end,
not under src/) answers `is_void` by the Void tag of §3. -/
def NativeType.is_void : NativeType → Bool
  | .void => true
  | _ => false

/-- Modelled from the spec: `is_char` holds of the Character tag. -/
def NativeType.is_char : NativeType → Bool
  | .character => true
  | _ => false

/-- Modelled from the spec: `is_number` holds of the Numeric tag (all widths
and signedness collapsed, §3). -/
def NativeType.is_number : NativeType → Bool
  | .numeric => true
  | _ => false

/-- Modelled from the spec: `is_enum` holds of the Enum tag. -/
def NativeType.is_enum : NativeType → Bool
  | .enum _ => true
  | _ => false

/-- Modelled from the spec: `is_record` holds of the Record tag. -/
def NativeType.is_record : NativeType → Bool
  | .record _ _ _ => true
  | _ => false

/-- Modelled from the spec: `is_function` holds of the Function tag. -/
def NativeType.is_function : NativeType → Bool
  | .func _ _ => true
  | _ => false

/-- Modelled from the spec: `is_pointer` holds of the Pointer tag. -/
def NativeType.is_pointer : NativeType → Bool
  | .pointer _ => true
  | _ => false

/-- Modelled from the spec: `get_pointee_type` of a pointer node. -/
def NativeType.get_pointee_type : NativeType → NativeType
  | .pointer t => t
  | t => t

/-- `node_to_type` of definiton_generator.py (lines 58-79), the Declaration
Emitter's classification to a script-visible type: the source's chain of
`is_*` queries, with the pointer branch refining on the pointee and every
unmatched case falling through to `'any'`. -/
def node_to_type (node_type : NativeType) : String :=
  if node_type.is_void then "void"
  else if node_type.is_char then "string"
  else if node_type.is_number || node_type.is_enum then "number"
  else if node_type.is_record then "object"
  else if node_type.is_function then "function"
  else if node_type.is_pointer then
    if node_type.get_pointee_type.is_char then "string"
    else if node_type.get_pointee_type.is_number then "Uint8Array"
    else if node_type.get_pointee_type.is_function then "function"
    else if node_type.get_pointee_type.is_record then "object"
    else "any"
  else "any"

/-- The Category the Declaration Emitter derives, read off the branch
structure of `node_to_type`: each source branch corresponds to one Category
of §3 (the merged `is_number or is_enum` branch emits the numeric script
type, so both its inputs are classified Numeric; the final fall-through to
`'any'` is the `unsupported` catch-all). -/
def declCategory (t : NativeType) : Category :=
  if t.is_void then .void
  else if t.is_char then .character
  else if t.is_number || t.is_enum then .numeric
  else if t.is_record then .record
  else if t.is_function then .function
  else if t.is_pointer then
    if t.get_pointee_type.is_char then .characterPointer
    else if t.get_pointee_type.is_number then .numericPointer
    else if t.get_pointee_type.is_function then .functionPointer
    else if t.get_pointee_type.is_record then .recordPointer
    else .unsupported
  else .unsupported

/-- Modelled from the spec: the clang front end (not under src/) sees the
same native entity that pycparser hands the Glue Emitter; this bridge maps
the pycparser view of a resolved C type to the §3 NativeType the Declaration
Emitter classifies.  Identifier types collapse per §3 (all number widths to
Numeric, chars to Character, `_Bool` to Boolean); unions have no §3 tag and
land on Unresolved. -/
def toNativeType : CNode → NativeType
  | .typeDecl _ (.identifierType ns) =>
    let s := joinNames ns
    if s = C_VOID_TYPE then .void
    else if s = C_BOOL_TYPE then .boolean
    else if s ∈ C_NUMBER_TYPES then .numeric
    else if s ∈ C_CHAR_TYPES then .character
    else .unresolved
  | .typeDecl _ (.struct n ds) =>
    .record (structNameStr n) (structNameStr n)
      (ds.attach.map (fun d => (d.1.1, toNativeType d.1.2)))
  | .typeDecl _ (.enum n) => .enum (structNameStr n)
  | .typeDecl _ (.union _) => .unresolved
  | .ptrDecl t => .pointer (toNativeType t)
  | _ => .unresolved
decreasing_by
  · obtain ⟨⟨dn, dt⟩, hd⟩ := d
    have h := List.sizeOf_lt_of_mem hd
    simp at h ⊢
    omega
  · simp

/-- A macro constant as the Declaration Emitter receives it: a name plus the
literal-kind queries `is_char()`, `is_string()`, `is_number()` of the front
end (modelled as recorded booleans). -/
structure MConst : Type where
  is_char : Bool
  is_string : Bool
  is_number : Bool
  name : String

/-- A record declaration as the Declaration Emitter receives it: `name`,
namespaced `ns_name`, and the ordered `field_decls` (member name and member
type). -/
structure RecordDecl : Type where
  name : String
  ns_name : String
  field_decls : List (String × NativeType)

/-- A free function as the Declaration Emitter receives it: `name`, ordered
`params` (name and type) and `return_type`. -/
structure FunctionDecl : Type where
  name : String
  params : List (String × NativeType)
  return_type : NativeType

/-- Modelled from the spec: `get_as_record_decl` of the clang wrapper (not
under src/) returns the record declaration behind a record-typed node. -/
def NativeType.get_as_record_decl (t : NativeType) : RecordDecl :=
  match t with
  | .record n ns fs => { name := n, ns_name := ns, field_decls := fs }
  | _ => { name := "", ns_name := "", field_decls := [] }

/-- Modelled from the spec: `get_as_function` of the clang wrapper (not
under src/) returns the function signature behind a declaration whose type
is a pointer to function. -/
def get_as_function (name : String) (t : NativeType) : FunctionDecl :=
  match t.get_pointee_type with
  | .func ps r => { name := name, params := ps, return_type := r }
  | _ => { name := name, params := [], return_type := .unresolved }

/-- `DEF_KIND_*` constants of `DefinitonGenerator`. -/
def DEF_KIND_FUNCTION : Nat := 0

/-- `DEF_KIND_CONST` of `DefinitonGenerator`. -/
def DEF_KIND_CONST : Nat := 1

/-- `DEF_KIND_LET` of `DefinitonGenerator`. -/
def DEF_KIND_LET : Nat := 2

/-- `DEF_KIND_VAR` of `DefinitonGenerator`. -/
def DEF_KIND_VAR : Nat := 3

/-- `DEF_KIND_INTERFACE` of `DefinitonGenerator`. -/
def DEF_KIND_INTERFACE : Nat := 4

/-- `def_kind_desc_strings` of `DefinitonGenerator`. -/
def def_kind_desc_strings : List String :=
  ["function", "const", "let", "var", "interface"]

/-- `append_type` of definiton_generator.py. -/
def append_type (js_type : String) : String := ": " ++ js_type

/-- `append_node_type` of definiton_generator.py. -/
def append_node_type (node_type : NativeType) : String :=
  append_type (node_to_type node_type)

/-- `append_named_node_type` of definiton_generator.py. -/
def append_named_node_type (name : String) (node_type : NativeType) : String :=
  name ++ append_node_type node_type ++ ";"

/-- `append_mconst_type`, the macro-constant variant of `append_type`
(`append_macro_type` in the source, renamed here). -/
def append_mconst_type (m : MConst) : String :=
  append_type (if m.is_char || m.is_string then "string"
               else if m.is_number then "number"
               else "any")

/-- `mconst_to_type` of definiton_generator.py (`macro_to_type` in the
source, renamed here): char or string literals declare as `string`, number
literals as `number`, anything else as `any`. -/
def mconst_to_type (m : MConst) : String :=
  if m.is_char || m.is_string then "string"
  else if m.is_number then "number"
  else "any"

/-- `to_anonymous_func_def` of definiton_generator.py. -/
def to_anonymous_func_def (desc ret_type : String) : String :=
  desc ++ " => " ++ ret_type

/-- `to_record_name` of definiton_generator.py: the last space-separated
component of the namespaced name. -/
def to_record_name (ns_name : String) : String :=
  (ns_name.splitOn " ").getLastD ""

/-- `to_record_definition` of definiton_generator.py. -/
def to_record_definition (name desc : String) (is_interface_def : Bool) : String :=
  (if is_interface_def then "\t" else "") ++ name ++ ": " ++ desc ++
    (if is_interface_def then ";" else "")

mutual

/-- Parameter rendering inside `emit_ext_function` of definiton_generator.py:
record parameters render by record name, pointer-to-function parameters
recurse into an anonymous function rendering (the source's nested
`emit_ext_function(param.get_as_function(), True)` call, which performs no
write), and all others render through `append_node_type`. -/
def paramDesc : String × NativeType → String
  | (n, .record _ ns _) => to_record_definition n (to_record_name ns) false
  | (n, .pointer (.func ps r)) => n ++ ": " ++ anonFuncDesc ps r
  | (n, t) => n ++ append_node_type t

/-- The parameter list of an anonymous function rendering, in order. -/
def paramsDescList : List (String × NativeType) → List String
  | [] => []
  | p :: ps => paramDesc p :: paramsDescList ps

/-- The anonymous rendering `emit_ext_function(f, True)` returns: parameters
joined in parentheses, arrow, return type through `node_to_type`. -/
def anonFuncDesc (ps : List (String × NativeType)) (r : NativeType) : String :=
  to_anonymous_func_def ("(" ++ String.intercalate ", " (paramsDescList ps) ++ ")")
    (node_to_type r)

end

/-- One recorded filesystem side effect of the Declaration Emitter. -/
inductive FSEvent : Type where
  | opened (name : String)
  | wrote (chunk : String)
  | closed
deriving Repr, DecidableEq

/-- The state of a `DefinitonGenerator`: whether `self.file` holds an open
file, and the trace of filesystem effects performed so far. -/
structure DefinitonGenerator : Type where
  fileIsOpen : Bool
  events : List FSEvent
deriving Repr, DecidableEq

/-- `DefinitonGenerator.__init__`: `self.file = open(file_name, 'w') if
file_name else None`; only a truthy (non-empty) file name opens the file and
writes the namespace-export header line. -/
def DefinitonGenerator.init (file_name lib_name : String) : DefinitonGenerator :=
  if file_name ≠ "" then
    { fileIsOpen := true
      events := [.opened file_name,
                 .wrote ("export as namespace " ++ lib_name ++ ";\n\n")] }
  else
    { fileIsOpen := false, events := [] }

/-- `line_writer`: every write of the Declaration Emitter funnels through
this guard — `if self.file:` — so nothing is written when no file was
opened. -/
def DefinitonGenerator.line_writer (self : DefinitonGenerator) (def_kind : Nat)
    (line : String) : DefinitonGenerator :=
  if self.fileIsOpen then
    { self with
        events := self.events ++
          [.wrote ("export " ++ def_kind_desc_strings.getD def_kind "" ++ " " ++ line)] }
  else self

/-- `append_defintion` (sic) of definiton_generator.py. -/
def DefinitonGenerator.append_defintion (self : DefinitonGenerator) (def_kind : Nat)
    (name desc ret_type : String) : DefinitonGenerator :=
  self.line_writer def_kind (name ++ desc ++ ret_type ++ ";\n")

/-- `append_interface` of definiton_generator.py. -/
def DefinitonGenerator.append_interface (self : DefinitonGenerator) (name : String)
    (body : List String) : DefinitonGenerator :=
  self.line_writer DEF_KIND_INTERFACE
    (name ++ " \x7b\n" ++ String.intercalate "\n" body ++ "\n\x7d\n")

/-- `emit_ext_function` of definiton_generator.py: builds the parameter
descriptions (recursive anonymous renderings perform no write), then either
returns the anonymous rendering or writes one function definition. -/
def DefinitonGenerator.emit_ext_function (self : DefinitonGenerator)
    (function : FunctionDecl) (anonymous : Bool) : DefinitonGenerator × String :=
  let ps := "(" ++ String.intercalate ", " (paramsDescList function.params) ++ ")"
  let ret_type := append_node_type function.return_type
  if anonymous then
    (self, to_anonymous_func_def ps (node_to_type function.return_type))
  else
    (self.append_defintion DEF_KIND_FUNCTION function.name ps ret_type, "")

/-- `emit_record` of definiton_generator.py: builds the interface body from
the field declarations (nested records by record name, function-pointer
members through the anonymous `emit_ext_function` rendering, every other
member through `append_named_node_type`), then writes the interface. -/
def DefinitonGenerator.emit_record (self : DefinitonGenerator)
    (record : RecordDecl) : DefinitonGenerator :=
  let body := record.field_decls.map (fun member =>
    if member.2.is_record then
      to_record_definition member.1
        (to_record_name member.2.get_as_record_decl.ns_name) true
    else if member.2.is_pointer && member.2.get_pointee_type.is_function then
      to_record_definition member.1
        (self.emit_ext_function (get_as_function member.1 member.2) true).2 true
    else
      "\t" ++ append_named_node_type member.1 member.2)
  self.append_interface record.name body

/-- `emit_number_array` of definiton_generator.py. -/
def DefinitonGenerator.emit_number_array (self : DefinitonGenerator)
    (name : String) : DefinitonGenerator :=
  self.append_defintion DEF_KIND_CONST name (append_type "Array<number>") ""

/-- `emit_global_record` of definiton_generator.py. -/
def DefinitonGenerator.emit_global_record (self : DefinitonGenerator)
    (name record : String) : DefinitonGenerator :=
  self.append_defintion DEF_KIND_VAR name (append_type (to_record_name record)) ""

/-- `emit_global_const_record` of definiton_generator.py. -/
def DefinitonGenerator.emit_global_const_record (self : DefinitonGenerator)
    (name record : String) : DefinitonGenerator :=
  self.append_defintion DEF_KIND_CONST name (append_type (to_record_name record)) ""

/-- `emit_enum` of definiton_generator.py. -/
def DefinitonGenerator.emit_enum (self : DefinitonGenerator)
    (enum : String) : DefinitonGenerator :=
  self.append_defintion DEF_KIND_CONST enum (append_type "number") ""

/-- `emit_mconst` of definiton_generator.py (`emit_macro` in the source,
renamed here). -/
def DefinitonGenerator.emit_mconst (self : DefinitonGenerator)
    (m : MConst) : DefinitonGenerator :=
  self.append_defintion DEF_KIND_CONST m.name (append_mconst_type m) ""

/-- `emit_const_variable` of definiton_generator.py. -/
def DefinitonGenerator.emit_const_variable (self : DefinitonGenerator)
    (name : String) (ty : NativeType) : DefinitonGenerator :=
  self.append_defintion DEF_KIND_CONST name (append_node_type ty) ""

/-- `emit_global_variable` of definiton_generator.py. -/
def DefinitonGenerator.emit_global_variable (self : DefinitonGenerator)
    (name : String) (ty : NativeType) : DefinitonGenerator :=
  self.append_defintion DEF_KIND_VAR name (append_node_type ty) ""

/-- `__del__` of definiton_generator.py: closes the file only when one was
opened. -/
def DefinitonGenerator.del (self : DefinitonGenerator) : DefinitonGenerator :=
  if self.fileIsOpen then
    { self with events := self.events ++ [.closed] }
  else self

/-- One call a client can make on a `DefinitonGenerator` after construction. -/
inductive DGOp : Type where
  | line_writer (def_kind : Nat) (line : String)
  | append_defintion (def_kind : Nat) (name desc ret_type : String)
  | append_interface (name : String) (body : List String)
  | emit_record (r : RecordDecl)
  | emit_number_array (name : String)
  | emit_global_record (name record : String)
  | emit_global_const_record (name record : String)
  | emit_enum (e : String)
  | emit_mconst (m : MConst)
  | emit_const_variable (name : String) (ty : NativeType)
  | emit_global_variable (name : String) (ty : NativeType)
  | emit_ext_function (f : FunctionDecl) (anonymous : Bool)
  | del

/-- Interpretation of one client call on the generator state. -/
def DGOp.step (g : DefinitonGenerator) : DGOp → DefinitonGenerator
  | .line_writer k line => g.line_writer k line
  | .append_defintion k n d r => g.append_defintion k n d r
  | .append_interface n b => g.append_interface n b
  | .emit_record r => g.emit_record r
  | .emit_number_array n => g.emit_number_array n
  | .emit_global_record n r => g.emit_global_record n r
  | .emit_global_const_record n r => g.emit_global_const_record n r
  | .emit_enum e => g.emit_enum e
  | .emit_mconst m => g.emit_mconst m
  | .emit_const_variable n t => g.emit_const_variable n t
  | .emit_global_variable n t => g.emit_global_variable n t
  | .emit_ext_function f a => (g.emit_ext_function f a).1
  | .del => g.del

/-- A whole client session: the calls applied in order. -/
def DGOp.run (g : DefinitonGenerator) (ops : List DGOp) : DefinitonGenerator :=
  ops.foldl DGOp.step g

/-! Shared facts about the concrete type-name lists. -/

/-- No entry of `C_NUMBER_TYPES` is the void type name. -/
lemma mem_number_ne_void {s : String} (h : s ∈ C_NUMBER_TYPES) : s ≠ C_VOID_TYPE := by
  fin_cases h <;> decide

/-- No entry of `C_NUMBER_TYPES` is the bool type name. -/
lemma mem_number_ne_bool {s : String} (h : s ∈ C_NUMBER_TYPES) : s ≠ C_BOOL_TYPE := by
  fin_cases h <;> decide

/-- The number and char type lists are disjoint. -/
lemma mem_number_not_char {s : String} (h : s ∈ C_NUMBER_TYPES) : s ∉ C_CHAR_TYPES := by
  fin_cases h <;> decide

/-- No entry of `C_CHAR_TYPES` is the void type name. -/
lemma mem_char_ne_void {s : String} (h : s ∈ C_CHAR_TYPES) : s ≠ C_VOID_TYPE := by
  fin_cases h <;> decide

/-- No entry of `C_CHAR_TYPES` is the bool type name. -/
lemma mem_char_ne_bool {s : String} (h : s ∈ C_CHAR_TYPES) : s ≠ C_BOOL_TYPE := by
  fin_cases h <;> decide

/-- The char and number type lists are disjoint. -/
lemma mem_char_not_number {s : String} (h : s ∈ C_CHAR_TYPES) : s ∉ C_NUMBER_TYPES := by
  fin_cases h <;> decide

/-! Claim C1. -/

/-- The native entity the two back-ends classify differently: a parameter
whose resolved C type is `enum E`. -/
def enumParamTypeC : CNode := .typeDecl none (.enum (some "E"))

/-- Claim C1 counterexample: for an enum-typed parameter the Glue Emitter's
dispatch derives no concrete Category (its `Enum` branch is `pass`, emitting
nothing — `unsupported`), while the Declaration Emitter's `node_to_type`
classifies the same entity as a script number (`numeric`); the two Categories
differ, refuting "both back-ends classify the same native entity to the same
Category". -/
theorem C1_counterexample :
    glueParamCategory enumParamTypeC = Category.unsupported ∧
    declCategory (toNativeType enumParamTypeC) = Category.numeric ∧
    glueParamCategory enumParamTypeC ≠ declCategory (toNativeType enumParamTypeC) ∧
    dispatchParamType "f" 0 enumParamTypeC = [] ∧
    node_to_type (toNativeType enumParamTypeC) = "number" := by
  refine ⟨rfl, ?_, ?_, rfl, ?_⟩ <;>
    simp [toNativeType, enumParamTypeC, declCategory, node_to_type, glueParamCategory,
      NativeType.is_void, NativeType.is_char, NativeType.is_number, NativeType.is_enum]

/-- Claim C1 amended: the two classifications agree on the fragment both
back-ends support — parameters of plain number-list and char-list identifier
types and struct parameters, and returns of void, number-list and char-list
identifier types — but not in general (an enum parameter is `unsupported`
for the Glue Emitter and `numeric` for the Declaration Emitter). -/
theorem C1_amended :
    (∀ d ns, joinNames ns ∈ C_NUMBER_TYPES ∨ joinNames ns ∈ C_CHAR_TYPES →
      glueParamCategory (.typeDecl d (.identifierType ns)) =
        declCategory (toNativeType (.typeDecl d (.identifierType ns)))) ∧
    (∀ d n ds,
      glueParamCategory (.typeDecl d (.struct n ds)) =
        declCategory (toNativeType (.typeDecl d (.struct n ds)))) ∧
    (∀ d ns, joinNames ns = C_VOID_TYPE ∨ joinNames ns ∈ C_NUMBER_TYPES ∨
        joinNames ns ∈ C_CHAR_TYPES →
      glueRetCategory (.typeDecl d (.identifierType ns)) =
        declCategory (toNativeType (.typeDecl d (.identifierType ns)))) := by
  refine ⟨?_, ?_, ?_⟩
  · rintro d ns (h | h)
    · simp [glueParamCategory, toNativeType, declCategory, h,
        mem_number_ne_void h, mem_number_ne_bool h, mem_number_not_char h,
        NativeType.is_void, NativeType.is_char, NativeType.is_number, NativeType.is_enum]
    · simp [glueParamCategory, toNativeType, declCategory, h,
        mem_char_ne_void h, mem_char_ne_bool h, mem_char_not_number h,
        NativeType.is_void, NativeType.is_char, NativeType.is_number, NativeType.is_enum]
  · intro d n ds
    simp [glueParamCategory, toNativeType, declCategory,
      NativeType.is_void, NativeType.is_char, NativeType.is_number, NativeType.is_enum,
      NativeType.is_record]
  · rintro d ns (h | h | h)
    · simp [glueRetCategory, toNativeType, declCategory, h,
        NativeType.is_void, NativeType.is_char, NativeType.is_number, NativeType.is_enum]
    · simp [glueRetCategory, toNativeType, declCategory, h,
        mem_number_ne_void h, mem_number_ne_bool h, mem_number_not_char h,
        NativeType.is_void, NativeType.is_char, NativeType.is_number, NativeType.is_enum]
    · simp [glueRetCategory, toNativeType, declCategory, h,
        mem_char_ne_void h, mem_char_ne_bool h, mem_char_not_number h,
        NativeType.is_void, NativeType.is_char, NativeType.is_number, NativeType.is_enum]

/-- Claim C1 amended, witnessed at concrete entities: an `int` parameter, a
struct parameter and a `void` return classify identically in both back-ends. -/
theorem C1_amended_witness :
    glueParamCategory (.typeDecl none (.identifierType ["int"])) =
      declCategory (toNativeType (.typeDecl none (.identifierType ["int"]))) ∧
    glueParamCategory (.typeDecl none (.struct (some "S") [("x", .typeDecl none (.identifierType ["int"]))])) =
      declCategory (toNativeType (.typeDecl none (.struct (some "S") [("x", .typeDecl none (.identifierType ["int"]))]))) ∧
    glueRetCategory (.typeDecl none (.identifierType ["void"])) =
      declCategory (toNativeType (.typeDecl none (.identifierType ["void"]))) :=
  ⟨C1_amended.1 none ["int"] (Or.inl (by decide)),
   C1_amended.2.1 none (some "S") [("x", .typeDecl none (.identifierType ["int"]))],
   C1_amended.2.2 none ["void"] (Or.inl (by decide))⟩

/-! Claim C2. -/

/-- A struct return type (`struct point { int x; int y; }`). -/
def structRetType : CNode :=
  .typeDecl none (.struct (some "point")
    [("x", .typeDecl (some "x") (.identifierType ["int"])),
     ("y", .typeDecl (some "y") (.identifierType ["int"]))])

/-- A native function returning that struct, with no parameters. -/
def structRetFunc : CNode := .decl "make_point" (.funcDecl none structRetType)

/-- Claim C2 counterexample: for a struct-returning function no native call
and no return-marshal snippet is emitted, yet `generate_jerry_functions`
still yields a complete `JS_FUNC_HANDLER` wrapper for it — so "no wrapper at
all is produced for that function" is false. -/
theorem C2_counterexample :
    dispatchRetType "make_point" "" structRetType = [] ∧
    generate_jerry_functions [structRetFunc] =
      [render_JS_FUNC_HANDLER "make_point" ""] ∧
    (generate_jerry_functions [structRetFunc]).length = 1 :=
  ⟨rfl, rfl, rfl⟩

/-- Claim C2 amended: return marshaling maps Void to script undefined,
Numeric to a script number, Character to a one-character string (the address
of the single `result` char) and Boolean to a script boolean; for any other
return Category (struct, union, enum, pointer) no native call and no return
snippet is emitted — but a handler wrapper is still produced for every
function, one per entry. -/
theorem C2_amended :
    (∀ d fn np, dispatchRetType fn np (.typeDecl d (.identifierType ["void"])) =
      [Snippet.nativeCall "" "" fn np, Snippet.funcRet "undefined" ""]) ∧
    (∀ d fn np ns, joinNames ns ∈ C_NUMBER_TYPES →
      dispatchRetType fn np (.typeDecl d (.identifierType ns)) =
        [Snippet.nativeCall (joinNames ns) " result = " fn np,
         Snippet.funcRet "number" "result"]) ∧
    (∀ d fn np ns, joinNames ns ∈ C_CHAR_TYPES →
      dispatchRetType fn np (.typeDecl d (.identifierType ns)) =
        [Snippet.nativeCall (joinNames ns) " result = " fn np,
         Snippet.funcRet "string" "(jerry_char_ptr_t)(&result)"]) ∧
    (∀ d fn np ns, joinNames ns = C_BOOL_TYPE →
      dispatchRetType fn np (.typeDecl d (.identifierType ns)) =
        [Snippet.nativeCall (joinNames ns) " result = " fn np,
         Snippet.funcRet "boolean" "result"]) ∧
    (∀ d fn np n ds, dispatchRetType fn np (.typeDecl d (.struct n ds)) = []) ∧
    (∀ d fn np n, dispatchRetType fn np (.typeDecl d (.union n)) = []) ∧
    (∀ d fn np n, dispatchRetType fn np (.typeDecl d (.enum n)) = []) ∧
    (∀ fn np t, dispatchRetType fn np (.ptrDecl t) = []) ∧
    (∀ fs, (generate_jerry_functions fs).length = fs.length) := by
  refine ⟨fun d fn np => rfl, ?_, ?_, ?_, fun _ _ _ _ _ => rfl, fun _ _ _ _ => rfl,
    fun _ _ _ _ => rfl, fun _ _ _ => rfl, fun fs => List.length_map _ _⟩
  · intro d fn np ns h
    simp [dispatchRetType, h, mem_number_ne_void h]
  · intro d fn np ns h
    simp [dispatchRetType, h, mem_char_ne_void h, mem_char_not_number h]
  · intro d fn np ns h
    have h1 : joinNames ns ∉ C_NUMBER_TYPES := by rw [h]; decide
    have h2 : joinNames ns ∉ C_CHAR_TYPES := by rw [h]; decide
    have h3 : joinNames ns ≠ C_VOID_TYPE := by rw [h]; decide
    simp [dispatchRetType, h, h1, h2, h3]
    rfl

/-- Claim C2 amended, witnessed at concrete return types `int`, `char` and
`_Bool`. -/
theorem C2_amended_witness :
    dispatchRetType "f" "arg_0" (.typeDecl none (.identifierType ["int"])) =
      [Snippet.nativeCall "int" " result = " "f" "arg_0",
       Snippet.funcRet "number" "result"] ∧
    dispatchRetType "g" "" (.typeDecl none (.identifierType ["char"])) =
      [Snippet.nativeCall "char" " result = " "g" "",
       Snippet.funcRet "string" "(jerry_char_ptr_t)(&result)"] ∧
    dispatchRetType "h" "" (.typeDecl none (.identifierType ["_Bool"])) =
      [Snippet.nativeCall "_Bool" " result = " "h" "",
       Snippet.funcRet "boolean" "result"] :=
  ⟨C2_amended.2.1 none "f" "arg_0" ["int"] (by decide),
   C2_amended.2.2.1 none "g" "" ["char"] (by decide),
   C2_amended.2.2.2.1 none "h" "" ["_Bool"] (by decide)⟩

/-! Claim C3. -/

/-- Helper: recognizer for arity-check snippets. -/
def isCheckArgCount : Snippet → Bool
  | .checkArgCount _ _ => true
  | _ => false

/-- Claim C3 counterexample: a function declared without a parameter list
(pycparser `args = None`, e.g. `void f();`) gets a glue body with no arity
check at all — the body is just the native call and the undefined return —
so "for every native function, the generated glue body begins with an arity
check" is false. -/
theorem C3_counterexample :
    genBody "f" none (.typeDecl none (.identifierType ["void"])) =
      [Snippet.nativeCall "" "" "f" "", Snippet.funcRet "undefined" ""] ∧
    (genBody "f" none (.typeDecl none (.identifierType ["void"]))).any isCheckArgCount = false :=
  ⟨rfl, rfl⟩

/-- Claim C3 amended: for every native function that has a declared
parameter list, the glue body begins with the arity check; the check's
message names the function and the expected count, the error is
TypeError-kind, and the emitted guard fires exactly on a count mismatch — in
particular a 2-parameter glue rejects 1 and 3 arguments and accepts 2. -/
theorem C3_amended :
    (∀ fn params ret, (genBody fn (some params) ret).head? =
      some (Snippet.checkArgCount params.length fn)) ∧
    (∀ c fn, renderSnippet (Snippet.checkArgCount c fn) =
      ("\n  if (args_cnt != " ++ toString c ++ ")\n  \x7b\n    const char* msg = \"") ++
        ("Wrong argument count for " ++ fn ++ "(), expected " ++ toString c ++ ".") ++
        "\";\n    return jerry_create_error(JERRY_ERROR_TYPE, (const jerry_char_t*)msg);\n  \x7d\n") ∧
    js_check_arg_count_fires 2 1 = true ∧
    js_check_arg_count_fires 2 3 = true ∧
    js_check_arg_count_fires 2 2 = false := by
  refine ⟨fun fn params ret => ?_, fun c fn => ?_, rfl, rfl, rfl⟩
  · simp [genBody]
  · simp [renderSnippet, render_JS_CHECK_ARG_COUNT, JS_CHECK_ARG_COUNT_msg,
      String.append_assoc]

/-! Claim C4. -/

/-- A parameter declared with an enum type — a type that classifies as
Unsupported where a concrete Category is required. -/
def enumParam : CNode := .decl "x" (.typeDecl (some "x") (.enum (some "E")))

/-- The function `void f(enum E x);` holding that parameter. -/
def enumParamFunc : CNode :=
  .decl "f" (.funcDecl (some [enumParam]) (.typeDecl none (.identifierType ["void"])))

/-- Claim C4, the code evaluated at the failing input `void f(enum E x)`:
the enum parameter produces no marshaling snippet at all (and nothing is
logged — no logging exists in the generator), yet the function is not
skipped: a handler is still yielded whose native call passes `arg_0`, an
identifier no snippet ever declares.  The offending entity is silently
included in the generated output, contradicting the skip-and-log policy. -/
theorem C4_failing_eval :
    genParamSnippets "f" 0 enumParam = [] ∧
    genBody "f" (some [enumParam]) (.typeDecl none (.identifierType ["void"])) =
      [Snippet.checkArgCount 1 "f",
       Snippet.nativeCall "" "" "f" "arg_0",
       Snippet.funcRet "undefined" ""] ∧
    (generate_jerry_functions [enumParamFunc]).length = 1 :=
  ⟨rfl, rfl, rfl⟩

/-! Claim C5. -/

/-- A dangling alias: `id_t` is declared as an alias of `missing_t`, a name
no typedef defines. -/
def danglingTypedef : CNode :=
  .typedefDecl "id_t" (.typeDecl (some "id_t") (.identifierType ["missing_t"]))

/-- A function whose parameter is declared with the dangling alias. -/
def danglingParamFunc : CNode :=
  .decl "g" (.funcDecl (some [.decl "x" (.typeDecl (some "x") (.identifierType ["id_t"]))])
    (.typeDecl none (.identifierType ["void"])))

/-- A declaration whose type spine is three pointers deep. -/
def deepPtrDecl : CNode :=
  .decl "p" (.ptrDecl (.ptrDecl (.ptrDecl (.typeDecl (some "p") (.identifierType ["int"])))))

/-- Claim C5 counterexample: with a dangling alias in the typedef table the
run does not abort — `gen_c_source` still produces the complete artifact
(include block, registration helper, one handler, initializer); no
ResolutionError exists anywhere in the resolver.  Moreover the resolver's
walk is bounded by the declaration's type-spine depth, not by
`|aliasTable| + 1`: a three-pointer spine walks 3 hops while the table bound
would be 2. -/
theorem C5_counterexample :
    (gen_c_source_parts [danglingTypedef] [danglingParamFunc] "m").length = 4 ∧
    resolveWalkHops deepPtrDecl = 3 ∧
    [danglingTypedef].length + 1 < resolveWalkHops deepPtrDecl :=
  ⟨rfl, rfl, by decide⟩

/-- Length preservation of a `resolve_typedefs` pass: no declaration is ever
dropped (and none is ever rejected) by resolution. -/
lemma resolve_typedefs_length (fs l : List CNode) :
    (resolve_typedefs fs l).length = l.length := by
  induction fs generalizing l with
  | nil => rfl
  | cons f fs ih =>
    have hstep : resolve_typedefs (f :: fs) l =
        resolve_typedefs fs (match f with
          | .typedefDecl fname fty => l.map (applyTypedef fname fty)
          | _ => l) := rfl
    rw [hstep]
    cases f <;> simp [ih]

/-- Length preservation of the parameter resolution pass. -/
lemma resolve_params_pass_length (fs l : List CNode) :
    (resolve_params_pass fs l).length = l.length := by
  induction fs generalizing l with
  | nil => rfl
  | cons f fs ih =>
    have hstep : resolve_params_pass (f :: fs) l =
        resolve_params_pass fs (match f with
          | .typedefDecl fname fty => l.map (applyTypedefToParams fname fty)
          | _ => l) := rfl
    rw [hstep]
    cases f <;> simp [ih]

/-- Claim C5 amended: typedef resolution is a structural walk of each
declaration's type spine with no error signal; on every input — dangling,
cyclic or well-formed — the run completes and assembles the full artifact:
the include block, the registration helper, exactly one handler per function
and the initializer. -/
theorem C5_amended (typedefs functions : List CNode) (dirname : String) :
    (gen_c_source_parts typedefs functions dirname).length = functions.length + 3 := by
  simp [gen_c_source_parts, generate_jerry_functions,
    resolve_params_pass_length, resolve_typedefs_length]

/-! Claim C6. -/

/-- Helper: whether any character of a string is a decimal digit. -/
def containsDigit (s : String) : Bool := s.data.any Char.isDigit

/-- Claim C6 counterexample: the failure message the glue emits on a
type-tag mismatch is the same string for parameter 0 and for parameter 1 of
the same function, and contains no digit whatsoever — so the message cannot
name the parameter index (the index occurs only in the guard condition,
never in the message). -/
theorem C6_counterexample :
    renderSnippet (Snippet.checkArgType "number" 0 "g") =
      ("\n  if (!jerry_value_is_number (args_p[0]))\n  \x7b\n    const char* msg = \"") ++
        JS_CHECK_ARG_TYPE_msg "g" "number" ++
        "\";\n    return jerry_create_error(JERRY_ERROR_TYPE, (const jerry_char_t*)msg);\n  \x7d\n" ∧
    renderSnippet (Snippet.checkArgType "number" 1 "g") =
      ("\n  if (!jerry_value_is_number (args_p[1]))\n  \x7b\n    const char* msg = \"") ++
        JS_CHECK_ARG_TYPE_msg "g" "number" ++
        "\";\n    return jerry_create_error(JERRY_ERROR_TYPE, (const jerry_char_t*)msg);\n  \x7d\n" ∧
    JS_CHECK_ARG_TYPE_msg "g" "number" = "Wrong argument type for g(), expected number." ∧
    containsDigit (JS_CHECK_ARG_TYPE_msg "g" "number") = false :=
  ⟨rfl, rfl, rfl, by decide⟩

/-- Digit search distributes over string append. -/
lemma containsDigit_append (a b : String) :
    containsDigit (a ++ b) = (containsDigit a || containsDigit b) := by
  simp [containsDigit]

/-- Claim C6 amended: for every parameter Category that gets a runtime
type-tag check (numeric, string, boolean, object), the check is the first
snippet emitted for the parameter and carries the function name and the
expected tag; the rendered failure message names the function and the
expected tag but not the parameter index — any digit in the message can only
come from the function name or the tag. -/
theorem C6_amended :
    (∀ fn i d ns, joinNames ns ∈ C_NUMBER_TYPES →
      (dispatchParamType fn i (.typeDecl d (.identifierType ns))).head? =
        some (Snippet.checkArgType "number" i fn)) ∧
    (∀ fn i d ns, joinNames ns ∈ C_CHAR_TYPES →
      (dispatchParamType fn i (.typeDecl d (.identifierType ns))).head? =
        some (Snippet.checkArgType "string" i fn)) ∧
    (∀ fn i d ns, joinNames ns = C_BOOL_TYPE →
      (dispatchParamType fn i (.typeDecl d (.identifierType ns))).head? =
        some (Snippet.checkArgType "boolean" i fn)) ∧
    (∀ fn i d n ds,
      (dispatchParamType fn i (.typeDecl d (.struct n ds))).head? =
        some (Snippet.checkArgType "object" i fn)) ∧
    (∀ tag i fn, ∃ p q,
      renderSnippet (Snippet.checkArgType tag i fn) =
        p ++ JS_CHECK_ARG_TYPE_msg fn tag ++ q ∧
      JS_CHECK_ARG_TYPE_msg fn tag =
        "Wrong argument type for " ++ fn ++ "(), expected " ++ tag ++ "." ∧
      containsDigit (JS_CHECK_ARG_TYPE_msg fn tag) =
        (containsDigit fn || containsDigit tag)) := by
  refine ⟨?_, ?_, ?_, fun fn i d n ds => rfl, ?_⟩
  · intro fn i d ns h
    simp [dispatchParamType, h]
  · intro fn i d ns h
    simp [dispatchParamType, h, mem_char_not_number h]
  · intro fn i d ns h
    have h1 : joinNames ns ∉ C_NUMBER_TYPES := by rw [h]; decide
    have h2 : joinNames ns ∉ C_CHAR_TYPES := by rw [h]; decide
    simp [dispatchParamType, h, h1, h2]
    rfl
  · intro tag i fn
    refine ⟨"\n  if (!jerry_value_is_" ++ tag ++ " (args_p[" ++ toString i ++
        "]))\n  \x7b\n    const char* msg = \"",
      "\";\n    return jerry_create_error(JERRY_ERROR_TYPE, (const jerry_char_t*)msg);\n  \x7d\n",
      ?_, rfl, ?_⟩
    · simp [renderSnippet, render_JS_CHECK_ARG_TYPE, String.append_assoc]
    · simp only [JS_CHECK_ARG_TYPE_msg, containsDigit_append]
      have h1 : containsDigit "Wrong argument type for " = false := by decide
      have h2 : containsDigit "(), expected " = false := by decide
      have h3 : containsDigit "." = false := by decide
      rw [h1, h2, h3]
      simp [Bool.or_comm, Bool.or_assoc, Bool.or_left_comm]

/-- Claim C6 amended, witnessed: the first snippet for an `int` parameter at
index 1 of `setFlag` is the number check naming the function, and the
rendered message for the boolean tag decomposes around a digit-free message
text. -/
theorem C6_amended_witness :
    (dispatchParamType "setFlag" 1 (.typeDecl none (.identifierType ["int"]))).head? =
      some (Snippet.checkArgType "number" 1 "setFlag") ∧
    (dispatchParamType "setFlag" 0 (.typeDecl none (.identifierType ["_Bool"]))).head? =
      some (Snippet.checkArgType "boolean" 0 "setFlag") :=
  ⟨C6_amended.1 "setFlag" 1 none ["int"] (by decide),
   C6_amended.2.2.1 "setFlag" 0 none ["_Bool"] (by decide)⟩

/-! Claim C7. -/

/-- Cancellation of a shared suffix of strings. -/
lemma string_append_cancel_right {a b c : String} (h : a ++ c = b ++ c) : a = b := by
  cases a with
  | mk la =>
    cases b with
    | mk lb =>
      cases c with
      | mk lc =>
        have hd : la ++ lc = lb ++ lc := congrArg String.data h
        have : la = lb := List.append_cancel_right hd
        rw [this]

/-- Claim C7: for a struct-typed parameter the glue emits the object check
followed by exactly one unconditional property read per declared field, in
field declaration order, each read targeting the argument object; and the
two local names each read declares are qualified by the record name, so
records with different names never collide on a shared field name. -/
theorem C7_record_field_reads :
    (∀ fn i d sname fields,
      dispatchParamType fn i (.typeDecl d (.struct sname fields)) =
        Snippet.checkArgType "object" i fn ::
          fields.map (fun f =>
            Snippet.getProp (structNameStr sname) f.1 ("args_p[" ++ toString i ++ "]"))) ∧
    (∀ s1 s2 m, s1 ≠ s2 →
      propLocalName s1 m ≠ propLocalName s2 m ∧
      propLocalValue s1 m ≠ propLocalValue s2 m) := by
  refine ⟨fun fn i d sname fields => rfl, fun s1 s2 m hne => ⟨?_, ?_⟩⟩
  · intro h
    apply hne
    have h1 : (s1 ++ "_" ++ m) ++ "_name" = (s2 ++ "_" ++ m) ++ "_name" := by
      simpa [propLocalName, String.append_assoc] using h
    have h2 : s1 ++ "_" ++ m = s2 ++ "_" ++ m := string_append_cancel_right h1
    have h3 : (s1 ++ "_") ++ m = (s2 ++ "_") ++ m := by
      simpa [String.append_assoc] using h2
    have h4 : s1 ++ "_" = s2 ++ "_" := string_append_cancel_right h3
    exact string_append_cancel_right h4
  · intro h
    apply hne
    have h1 : (s1 ++ "_" ++ m) ++ "_value" = (s2 ++ "_" ++ m) ++ "_value" := by
      simpa [propLocalValue, String.append_assoc] using h
    have h2 : s1 ++ "_" ++ m = s2 ++ "_" ++ m := string_append_cancel_right h1
    have h3 : (s1 ++ "_") ++ m = (s2 ++ "_") ++ m := by
      simpa [String.append_assoc] using h2
    have h4 : s1 ++ "_" = s2 ++ "_" := string_append_cancel_right h3
    exact string_append_cancel_right h4

/-- Claim C7 witnessed on the spec's example: a struct with fields `x` then
`y` generates exactly two property reads, for `x` then `y`, in that order,
and two distinct record names sharing field `x` yield distinct locals. -/
theorem C7_witness :
    dispatchParamType "h" 0 (.typeDecl none (.struct (some "pt")
        [("x", .typeDecl (some "x") (.identifierType ["int"])),
         ("y", .typeDecl (some "y") (.identifierType ["int"]))])) =
      [Snippet.checkArgType "object" 0 "h",
       Snippet.getProp "pt" "x" "args_p[0]",
       Snippet.getProp "pt" "y" "args_p[0]"] ∧
    propLocalName "pt" "x" ≠ propLocalName "pt2" "x" ∧
    propLocalValue "pt" "x" ≠ propLocalValue "pt2" "x" :=
  ⟨C7_record_field_reads.1 "h" 0 none (some "pt")
      [("x", .typeDecl (some "x") (.identifierType ["int"])),
       ("y", .typeDecl (some "y") (.identifierType ["int"]))],
   (C7_record_field_reads.2 "pt" "pt2" "x" (by decide)).1,
   (C7_record_field_reads.2 "pt" "pt2" "x" (by decide)).2⟩

/-! Claim C8. -/

/-- Claim C8 counterexample: a `char*` (CharacterPointer) parameter is not
marshaled at all — the `PtrDecl` branch is `pass` and emits nothing, not a
first-character read — while a plain `char` parameter does get the
one-character marshaling. -/
theorem C8_counterexample :
    dispatchParamType "f" 0 (.ptrDecl (.typeDecl none (.identifierType ["char"]))) = [] ∧
    dispatchParamType "f" 0 (.typeDecl none (.identifierType ["char"])) =
      [Snippet.checkArgType "string" 0 "f", Snippet.getCharArg "char" 0] ∧
    renderSnippet (Snippet.getCharArg "char" 0) =
      "\n  jerry_char_t char_0[1];\n  jerry_string_to_char_buffer (args_p[0], char_0, 1);\n  char arg_0 = (char)char_0[0];\n" :=
  ⟨rfl, rfl, rfl⟩

/-- Claim C8 amended: a parameter of Character Category marshals only the
first character of the supplied string — the emitted extraction declares a
one-byte buffer, copies at most one byte and reads element 0 — while a
parameter of CharacterPointer Category (or any other pointer) is not
marshaled at all. -/
theorem C8_amended :
    (∀ fn i d ns, joinNames ns ∈ C_CHAR_TYPES →
      dispatchParamType fn i (.typeDecl d (.identifierType ns)) =
        [Snippet.checkArgType "string" i fn, Snippet.getCharArg (joinNames ns) i] ∧
      renderSnippet (Snippet.getCharArg (joinNames ns) i) =
        "\n  jerry_char_t char_" ++ toString i ++ "[1];\n  jerry_string_to_char_buffer (args_p[" ++
          toString i ++ "], char_" ++ toString i ++ ", 1);\n  " ++ joinNames ns ++ " arg_" ++
          toString i ++ " = (" ++ joinNames ns ++ ")char_" ++ toString i ++ "[0];\n") ∧
    (∀ fn i t, dispatchParamType fn i (.ptrDecl t) = []) := by
  refine ⟨fun fn i d ns h => ⟨?_, ?_⟩, fun fn i t => rfl⟩
  · simp [dispatchParamType, h, mem_char_not_number h]
  · simp [renderSnippet, render_JS_GET_CHAR_ARG, String.append_assoc]

/-- Claim C8 amended, witnessed at a `signed char` parameter and at a
`char*` parameter. -/
theorem C8_amended_witness :
    dispatchParamType "f" 2 (.typeDecl none (.identifierType ["signed", "char"])) =
      [Snippet.checkArgType "string" 2 "f",
       Snippet.getCharArg (joinNames ["signed", "char"]) 2] ∧
    dispatchParamType "f" 2 (.ptrDecl (.typeDecl none (.identifierType ["char"]))) = [] :=
  ⟨(C8_amended.1 "f" 2 none ["signed", "char"] (by decide)).1,
   C8_amended.2 "f" 2 (.typeDecl none (.identifierType ["char"]))⟩

/-! Claim C9. -/

/-- A typedef table with the alias chain `b → a → base` declared in C's
forced dependency order: first `typedef base a;`, then `typedef a b;` (for
the spec's example, `a = ulong_t`, `b = id_t`, `base = unsigned long`). -/
def chainTypedefs (a b : String) (base : List String) : List CNode :=
  [.typedefDecl a (.typeDecl (some a) (.identifierType base)),
   .typedefDecl b (.typeDecl (some b) (.identifierType [a]))]

/-- A parameter declared with the outer alias `b`. -/
def aliasParam (b : String) : CNode :=
  .decl "x" (.typeDecl (some "x") (.identifierType [b]))

/-- A parameter declared directly with the concrete type. -/
def directParam (base : List String) : CNode :=
  .decl "y" (.typeDecl (some "y") (.identifierType base))

/-- The Category the glue dispatch derives for a parameter declaration
(classification reads the declaration's `.type`). -/
def paramCategoryOf (p : CNode) : Category :=
  match nodeTypeAttr p with
  | some t => glueParamCategory t
  | none => .unsupported

/-- Claim C9: after the typedef self-resolution pass and the parameter
resolution pass — run exactly as `gen_c_source` runs them — a parameter
declared with an alias that reaches a concrete type through a chain of
aliases classifies to the same Category as a parameter declared directly
with the concrete type.  `a ≠ b` and `base ∉ {[a], [b]}` say the alias names
are distinct from each other and from the concrete type name, as C requires. -/
theorem C9_chain_resolution (a b : String) (base : List String)
    (hab : a ≠ b) (hba : base ≠ [a]) (hbb : base ≠ [b]) :
    (resolve_typedefs (resolve_typedefs_self (chainTypedefs a b base))
        [aliasParam b]).map paramCategoryOf =
      (resolve_typedefs (resolve_typedefs_self (chainTypedefs a b base))
        [directParam base]).map paramCategoryOf := by
  have hba' : b ≠ a := hab.symm
  have hself : resolve_typedefs_self (chainTypedefs a b base) =
      [.typedefDecl a (.typeDecl (some a) (.identifierType base)),
       .typedefDecl b (.typeDecl (some a) (.identifierType base))] := by
    simp [resolve_typedefs_self, chainTypedefs, show List.range 2 = [0, 1] from rfl,
      applyTypedef, resolveChild, hba, hbb]
  rw [hself]
  have halias : resolve_typedefs
      [.typedefDecl a (.typeDecl (some a) (.identifierType base)),
       .typedefDecl b (.typeDecl (some a) (.identifierType base))] [aliasParam b] =
      [.decl "x" (.typeDecl (some a) (.identifierType base))] := by
    simp [resolve_typedefs, aliasParam, applyTypedef, resolveChild, hba']
  have hdirect : resolve_typedefs
      [.typedefDecl a (.typeDecl (some a) (.identifierType base)),
       .typedefDecl b (.typeDecl (some a) (.identifierType base))] [directParam base] =
      [.decl "y" (.typeDecl (some "y") (.identifierType base))] := by
    simp [resolve_typedefs, directParam, applyTypedef, resolveChild, hba, hbb]
  rw [halias, hdirect]
  rfl

/-- Claim C9 witnessed on the spec's chain `id_t → ulong_t → unsigned long`:
the alias-declared parameter and the directly declared parameter both
classify Numeric. -/
theorem C9_chain_resolution_witness :
    (resolve_typedefs (resolve_typedefs_self (chainTypedefs "ulong_t" "id_t" ["unsigned", "long"]))
        [aliasParam "id_t"]).map paramCategoryOf =
      (resolve_typedefs (resolve_typedefs_self (chainTypedefs "ulong_t" "id_t" ["unsigned", "long"]))
        [directParam ["unsigned", "long"]]).map paramCategoryOf ∧
    (resolve_typedefs (resolve_typedefs_self (chainTypedefs "ulong_t" "id_t" ["unsigned", "long"]))
        [aliasParam "id_t"]).map paramCategoryOf = [Category.numeric] :=
  ⟨C9_chain_resolution "ulong_t" "id_t" ["unsigned", "long"]
      (by decide) (by decide) (by decide),
   by decide⟩

/-! Claim C10. -/

/-- Every operation of the Declaration Emitter is the identity on a
generator constructed without an open file: each write funnels through the
`if self.file:` guard of `line_writer`, and `__del__` closes only an open
file. -/
lemma dgop_step_closed (g : DefinitonGenerator) (hopen : g.fileIsOpen = false)
    (op : DGOp) : DGOp.step g op = g := by
  have hlw : ∀ k line, g.line_writer k line = g := by
    intro k line
    simp [DefinitonGenerator.line_writer, hopen]
  have had : ∀ k n d r, g.append_defintion k n d r = g := by
    intro k n d r
    rw [DefinitonGenerator.append_defintion, hlw]
  cases op with
  | line_writer k line => exact hlw k line
  | append_defintion k n d r => exact had k n d r
  | append_interface n b => exact hlw _ _
  | emit_record r => exact hlw _ _
  | emit_number_array n => exact had _ _ _ _
  | emit_global_record n r => exact had _ _ _ _
  | emit_global_const_record n r => exact had _ _ _ _
  | emit_enum e => exact had _ _ _ _
  | emit_mconst m => exact had _ _ _ _
  | emit_const_variable n t => exact had _ _ _ _
  | emit_global_variable n t => exact had _ _ _ _
  | emit_ext_function f a =>
    cases a with
    | false => exact had _ _ _ _
    | true => rfl
  | del =>
    show g.del = g
    rw [DefinitonGenerator.del, if_neg (by simp [hopen])]

/-- A whole session on a closed generator changes nothing. -/
lemma dgop_run_closed (ops : List DGOp) (g : DefinitonGenerator)
    (hopen : g.fileIsOpen = false) : DGOp.run g ops = g := by
  induction ops generalizing g with
  | nil => rfl
  | cons op ops ih =>
    have hstep : DGOp.run g (op :: ops) = DGOp.run (DGOp.step g op) ops := rfl
    rw [hstep, dgop_step_closed g hopen op]
    exact ih g hopen

/-- Claim C10: constructing a `DefinitonGenerator` with a falsy file name
opens no file and writes nothing, and every subsequent emit/append operation
as well as destruction is a no-op with respect to output — the filesystem
event trace stays empty over any sequence of client calls. -/
theorem C10_falsy_file_name_no_output (lib_name : String) (ops : List DGOp) :
    (DGOp.run (DefinitonGenerator.init "" lib_name) ops).events = [] ∧
    (DGOp.run (DefinitonGenerator.init "" lib_name) ops).fileIsOpen = false := by
  have hinit : DefinitonGenerator.init "" lib_name =
      { fileIsOpen := false, events := [] } := by
    simp [DefinitonGenerator.init]
  rw [hinit, dgop_run_closed ops _ rfl]
  exact ⟨rfl, rfl⟩

end IotjsGen
